import Mathlib

/-!
Verification of the Nephro-Sim core (scenario resolver + physiology
evaluator) from `app.py`.

The script's core is a pure pipeline: `get_parameters` maps the selected
scenario string to a six-tuple of physiological parameters, then straight-line
arithmetic computes the ENaC flux, systolic blood pressure and serum
potassium.  Python floats are modelled as rationals (`ℚ`); every constant in
the source is an exact decimal, so the rational model evaluates the same
formulas exactly.

`namespace App` holds the embedding of the source; `namespace Spec` holds
definitions written from the specification document's formulas and tables, to
be compared against the source embedding.
-/

namespace App

/-- Scenario identifier string offered by the sidebar radio widget. -/
def nNormal : String := "Normal Physiology"

/-- Scenario identifier string offered by the sidebar radio widget. -/
def nAcetazolamide : String := "Acetazolamide (Proximal)"

/-- Scenario identifier string offered by the sidebar radio widget. -/
def nVomiting : String := "Vomiting (Metabolic Alkalosis)"

/-- Scenario identifier string offered by the sidebar radio widget. -/
def nFurosemide : String := "Furosemide (Loop)"

/-- Scenario identifier string offered by the sidebar radio widget. -/
def nDehydration : String := "Dehydration"

/-- Scenario identifier string offered by the sidebar radio widget. -/
def nLiddle : String := "Liddle\x27s Syndrome"

/-- Scenario identifier string offered by the sidebar radio widget. -/
def nAmiloride : String := "Amiloride (Channel Blocker)"

/-- Scenario identifier string offered by the sidebar radio widget. -/
def nAldactone : String := "Aldactone (Receptor Antagonist)"

/-- Scenario identifier string offered by the sidebar radio widget. -/
def nPHA : String := "PHA Type 1 (ENaC Inactivity)"

/-- The closed enumeration of the nine scenario identifiers (the radio
options of app.py lines 12-23). -/
def scenarioNames : List String :=
  [nNormal, nAcetazolamide, nVomiting, nFurosemide, nDehydration,
   nLiddle, nAmiloride, nAldactone, nPHA]

/-- The six-component tuple returned by `get_parameters` in `app.py`:
genotype factor, serum aldosterone, MR efficacy, distal Na delivery,
pore block fraction, volume status modifier. -/
structure Params where
  g_factor : ℚ
  serum_aldo : ℚ
  mr_efficacy : ℚ
  delivery : ℚ
  pore_block : ℚ
  vol_mod : ℚ

/-- Embedding of `get_parameters(scen)` (app.py lines 26-80): a chain of
string comparisons, each returning a hardcoded tuple, with a fall-through
default of `(1.0, 10.0, 1.0, 1.0, 0.0, 1.0)` at line 80. -/
def get_parameters (scen : String) : Params :=
  if scen = nNormal then ⟨1.0, 12.0, 1.0, 1.0, 0.0, 1.0⟩
  else if scen = nAcetazolamide then ⟨1.0, 8.0, 0.8, 1.5, 0.0, 0.90⟩
  else if scen = nVomiting then ⟨1.0, 60.0, 1.0, 1.4, 0.0, 0.85⟩
  else if scen = nFurosemide then ⟨1.0, 50.0, 1.0, 3.5, 0.0, 0.88⟩
  else if scen = nDehydration then ⟨1.0, 80.0, 1.0, 0.6, 0.0, 0.85⟩
  else if scen = nLiddle then ⟨4.0, 2.0, 1.0, 1.0, 0.0, 1.15⟩
  else if scen = nAmiloride then ⟨1.0, 70.0, 1.0, 1.0, 0.95, 0.94⟩
  else if scen = nAldactone then ⟨1.0, 80.0, 0.0, 1.0, 0.0, 0.94⟩
  else if scen = nPHA then ⟨0.1, 90.0, 1.0, 1.0, 0.0, 0.88⟩
  else ⟨1.0, 10.0, 1.0, 1.0, 0.0, 1.0⟩

/-- The fall-through tuple of app.py line 80. -/
def default_params : Params := ⟨1.0, 10.0, 1.0, 1.0, 0.0, 1.0⟩

/-- `aldo_signal = serum_aldo * mr_efficacy` (app.py line 89). -/
def aldo_signal (p : Params) : ℚ := p.serum_aldo * p.mr_efficacy

/-- `aldo_stim = 1 + (aldo_signal / 15.0)` (app.py line 90). -/
def aldo_stim (p : Params) : ℚ := 1 + aldo_signal p / 15.0

/-- `channel_open_prob` (app.py lines 92-96): the Liddle scenario bypasses the
hormone signal, every other scenario multiplies the genotype factor by the
aldosterone stimulation. -/
def channel_open_prob (scenario : String) (p : Params) : ℚ :=
  if scenario = nLiddle then p.g_factor else p.g_factor * aldo_stim p

/-- `enac_flux = channel_open_prob * delivery * (1 - pore_block)`
(app.py line 100). -/
def enac_flux (scenario : String) (p : Params) : ℚ :=
  channel_open_prob scenario p * p.delivery * (1 - p.pore_block)

/-- Blood pressure (app.py lines 105-110): base 120 scaled by the volume
modifier, plus `(enac_flux - 1.5) * 4`, then the clamp
`max(85, min(190, bp))`. -/
def bp (scenario : String) (p : Params) : ℚ :=
  let base_bp : ℚ := 120
  let bp0 := base_bp * p.vol_mod
  let bp1 := bp0 + (enac_flux scenario p - 1.5) * 4
  max 85 (min 190 bp1)

/-- The disabled-channel condition of app.py line 120:
`pore_block > 0.8 or g_factor < 0.2 or mr_efficacy < 0.1`. -/
def channel_disabled (p : Params) : Prop :=
  p.pore_block > 0.8 ∨ p.g_factor < 0.2 ∨ p.mr_efficacy < 0.1

instance (p : Params) : Decidable (channel_disabled p) := by
  unfold channel_disabled; infer_instance

/-- Serum potassium (app.py lines 116-124): the slope formula
`4.0 - 0.5 * (enac_flux - 2.0)`, a conditional `k_val += 1.5` when the channel
is blocked or dead, then the clamp `max(2.8, min(6.5, k_val))`. -/
def k_val (scenario : String) (p : Params) : ℚ :=
  let k0 := 4.0 - (0.5 * (enac_flux scenario p - 2.0))
  let k1 := if channel_disabled p then k0 + 1.5 else k0
  max 2.8 (min 6.5 k1)

end App

namespace Spec

/-- `clamp(x, lo, hi)` as used throughout the specification document. -/
def clamp (x lo hi : ℚ) : ℚ := max lo (min hi x)

/-- Potassium slope constant of §4.2 step 6 (observed value). -/
def k_slope : ℚ := 0.5

/-- Potassium pivot constant of §4.2 step 6 (observed value). -/
def k_pivot : ℚ := 2.0

/-- Lower potassium clamp bound of this revision. -/
def k_min : ℚ := 2.8

/-- Upper potassium clamp bound of this revision. -/
def k_max : ℚ := 6.5

/-- Lower blood-pressure clamp bound of this revision. -/
def bp_min : ℚ := 85

/-- Upper blood-pressure clamp bound of this revision. -/
def bp_max : ℚ := 190

/-- Secondary flux correction weight of §4.2 step 5. -/
def fine_tune_constant : ℚ := 4

/-- The fixed revision constant `K` of §4.2 step 2 (this revision uses 15). -/
def K : ℚ := 15

/-- §4.2 step 6, as the specification states it: the slope formula, a fixed
`+1.5` correction exactly when the channel is pharmacologically or
genetically disabled, then the clamp to `[k_min, k_max]`. -/
def serum_potassium (p : App.Params) (flux : ℚ) : ℚ :=
  let base := 4.0 - k_slope * (flux - k_pivot)
  let adjusted := if App.channel_disabled p then base + 1.5 else base
  clamp adjusted k_min k_max

/-- §4.2 step 5, as the specification states it. -/
def systolic_bp (p : App.Params) (flux : ℚ) : ℚ :=
  clamp (120 * p.vol_mod + (flux - 1.5) * fine_tune_constant) bp_min bp_max

/-- §4.2 step 3, as the specification states it. -/
def channel_open_prob (scenario : String) (p : App.Params) : ℚ :=
  if scenario = App.nLiddle then p.g_factor
  else p.g_factor * (1 + p.serum_aldo * p.mr_efficacy / K)

/-- §4.2 step 4, as the specification states it. -/
def channel_flux (scenario : String) (p : App.Params) : ℚ :=
  channel_open_prob scenario p * p.delivery * (1 - p.pore_block)

/-- A closed interval of admissible values in the §4.1 mapping table (a point
value is the degenerate interval). -/
structure Range where
  lo : ℚ
  hi : ℚ

/-- Membership in a table interval. -/
def inRange (r : Range) (x : ℚ) : Prop := r.lo ≤ x ∧ x ≤ r.hi

/-- Point value in the §4.1 table. -/
def pt (x : ℚ) : Range := ⟨x, x⟩

/-- One row of the §4.1 mapping table: admissible interval per field. -/
structure TableRow where
  genotype : Range
  serum_aldo : Range
  receptor_eff : Range
  delivery : Range
  pore_block : Range
  vol_mod : Range

/-- A parameter tuple lies within a table row, componentwise. -/
def rowMatches (r : TableRow) (p : App.Params) : Prop :=
  inRange r.genotype p.g_factor ∧ inRange r.serum_aldo p.serum_aldo ∧
  inRange r.receptor_eff p.mr_efficacy ∧ inRange r.delivery p.delivery ∧
  inRange r.pore_block p.pore_block ∧ inRange r.vol_mod p.vol_mod

/-- §4.1 table row: Normal Physiology. -/
def rowNormal : TableRow := ⟨pt 1.0, pt 12.0, pt 1.0, pt 1.0, pt 0.0, pt 1.0⟩

/-- §4.1 table row: Acetazolamide (Proximal). -/
def rowAcetazolamide : TableRow :=
  ⟨pt 1.0, ⟨8.0, 30.0⟩, ⟨0.8, 1.0⟩, ⟨1.5, 1.8⟩, pt 0.0, ⟨0.90, 0.95⟩⟩

/-- §4.1 table row: Vomiting (Metabolic Alkalosis). -/
def rowVomiting : TableRow :=
  ⟨pt 1.0, ⟨60.0, 85.0⟩, pt 1.0, ⟨1.2, 1.5⟩, pt 0.0, ⟨0.85, 0.88⟩⟩

/-- §4.1 table row: Furosemide (Loop). -/
def rowFurosemide : TableRow :=
  ⟨pt 1.0, ⟨45.0, 80.0⟩, pt 1.0, ⟨3.0, 3.5⟩, pt 0.0, ⟨0.88, 0.92⟩⟩

/-- §4.1 table row: Dehydration. -/
def rowDehydration : TableRow :=
  ⟨pt 1.0, ⟨80.0, 95.0⟩, pt 1.0, ⟨0.5, 0.8⟩, pt 0.0, pt 0.85⟩

/-- §4.1 table row: Liddle. -/
def rowLiddle : TableRow :=
  ⟨pt 4.0, ⟨1.0, 5.0⟩, pt 1.0, pt 1.0, pt 0.0, ⟨1.0, 1.15⟩⟩

/-- §4.1 table row: Amiloride (Channel Blocker). -/
def rowAmiloride : TableRow :=
  ⟨pt 1.0, ⟨10.0, 70.0⟩, pt 1.0, pt 1.0, pt 0.95, ⟨0.94, 0.95⟩⟩

/-- §4.1 table row: Aldactone (Receptor Antagonist). -/
def rowAldactone : TableRow :=
  ⟨pt 1.0, ⟨80.0, 90.0⟩, ⟨0.0, 0.05⟩, pt 1.0, pt 0.0, pt 0.94⟩

/-- §4.1 table row: PHA1 (Loss of Function). -/
def rowPHA : TableRow :=
  ⟨pt 0.1, ⟨90.0, 100.0⟩, pt 1.0, pt 1.0, pt 0.0, pt 0.88⟩

/-- The single error kind of the specification's §7 taxonomy. -/
inductive ResolveError where
  | invalidScenario
deriving DecidableEq

/-- The resolver contract as §4.1 and §7 of the specification state it:
identifiers inside the closed enumeration resolve to their parameter tuple,
identifiers outside it signal `InvalidScenario`. -/
def resolve (scen : String) : Except ResolveError App.Params :=
  if scen ∈ App.scenarioNames then Except.ok (App.get_parameters scen)
  else Except.error ResolveError.invalidScenario

end Spec

namespace Cex

/-- Valid parameter tuple with zero genotype factor (data-model invariants of
§3 only require it non-negative) and pore block 0.3. -/
def zeroGeno₁ : App.Params := ⟨0, 12.0, 1.0, 1.0, 0.3, 1.0⟩

/-- Same tuple as `Cex.zeroGeno₁` except pore block 0.6. -/
def zeroGeno₂ : App.Params := ⟨0, 12.0, 1.0, 1.0, 0.6, 1.0⟩

/-- Valid parameter tuple with a fully blocked pore (`pore_block = 1.0`) and
baseline delivery 1.0. -/
def fullBlock₁ : App.Params := ⟨1.0, 12.0, 1.0, 1.0, 1.0, 1.0⟩

/-- Same tuple as `Cex.fullBlock₁` except delivery 2.0. -/
def fullBlock₂ : App.Params := ⟨1.0, 12.0, 1.0, 2.0, 1.0, 1.0⟩

end Cex

/-- `channel_open_prob` does not read the pore-block field, so updating it
leaves the open probability unchanged. -/
lemma channel_open_prob_set_pore_block (s : String) (p : App.Params) (x : ℚ) :
    App.channel_open_prob s { p with pore_block := x } =
      App.channel_open_prob s p := rfl

/-- `channel_open_prob` does not read the delivery field, so updating it
leaves the open probability unchanged. -/
lemma channel_open_prob_set_delivery (s : String) (p : App.Params) (x : ℚ) :
    App.channel_open_prob s { p with delivery := x } =
      App.channel_open_prob s p := rfl

/-- Evaluation of the resolver at the Normal Physiology row. -/
lemma gpNormal : App.get_parameters App.nNormal = ⟨1.0, 12.0, 1.0, 1.0, 0.0, 1.0⟩ := rfl

/-- Evaluation of the resolver at the Acetazolamide row. -/
lemma gpAcetazolamide :
    App.get_parameters App.nAcetazolamide = ⟨1.0, 8.0, 0.8, 1.5, 0.0, 0.90⟩ := rfl

/-- Evaluation of the resolver at the Vomiting row. -/
lemma gpVomiting :
    App.get_parameters App.nVomiting = ⟨1.0, 60.0, 1.0, 1.4, 0.0, 0.85⟩ := rfl

/-- Evaluation of the resolver at the Furosemide row. -/
lemma gpFurosemide :
    App.get_parameters App.nFurosemide = ⟨1.0, 50.0, 1.0, 3.5, 0.0, 0.88⟩ := rfl

/-- Evaluation of the resolver at the Dehydration row. -/
lemma gpDehydration :
    App.get_parameters App.nDehydration = ⟨1.0, 80.0, 1.0, 0.6, 0.0, 0.85⟩ := rfl

/-- Evaluation of the resolver at the Liddle row. -/
lemma gpLiddle : App.get_parameters App.nLiddle = ⟨4.0, 2.0, 1.0, 1.0, 0.0, 1.15⟩ := rfl

/-- Evaluation of the resolver at the Amiloride row. -/
lemma gpAmiloride :
    App.get_parameters App.nAmiloride = ⟨1.0, 70.0, 1.0, 1.0, 0.95, 0.94⟩ := rfl

/-- Evaluation of the resolver at the Aldactone row. -/
lemma gpAldactone :
    App.get_parameters App.nAldactone = ⟨1.0, 80.0, 0.0, 1.0, 0.0, 0.94⟩ := rfl

/-- Evaluation of the resolver at the PHA Type 1 row. -/
lemma gpPHA : App.get_parameters App.nPHA = ⟨0.1, 90.0, 1.0, 1.0, 0.0, 0.88⟩ := rfl

/-- The Normal Physiology scenario takes the hormone-dependent branch. -/
lemma copNormal (p : App.Params) :
    App.channel_open_prob App.nNormal p = p.g_factor * App.aldo_stim p := rfl

/-- The Amiloride scenario takes the hormone-dependent branch. -/
lemma copAmiloride (p : App.Params) :
    App.channel_open_prob App.nAmiloride p = p.g_factor * App.aldo_stim p := rfl

/-- The PHA Type 1 scenario takes the hormone-dependent branch. -/
lemma copPHA (p : App.Params) :
    App.channel_open_prob App.nPHA p = p.g_factor * App.aldo_stim p := rfl

/-- The Liddle scenario bypasses the hormone signal. -/
lemma copLiddle (p : App.Params) :
    App.channel_open_prob App.nLiddle p = p.g_factor := rfl

/-- C1 counterexample: the concrete identifier "Unknown Condition" lies outside
the closed enumeration; the specification's resolver contract demands
`InvalidScenario` there, but the source's `get_parameters` raises nothing and
returns the fall-through default tuple instead. -/
theorem resolver_no_failure_outside_enum :
    "Unknown Condition" ∉ App.scenarioNames ∧
    Spec.resolve "Unknown Condition" =
      Except.error Spec.ResolveError.invalidScenario ∧
    App.get_parameters "Unknown Condition" = App.default_params := by
  refine ⟨by decide, ?_, rfl⟩
  unfold Spec.resolve
  rw [if_neg (by decide)]

/-- C1 (amended): `get_parameters` is total and never signals an error; every
identifier outside the closed enumeration of nine scenario kinds resolves to
the default tuple `(1.0, 10.0, 1.0, 1.0, 0.0, 1.0)` instead of
`InvalidScenario`. -/
theorem resolver_total_default_outside_enum (s : String)
    (h : s ∉ App.scenarioNames) : App.get_parameters s = App.default_params := by
  simp only [App.scenarioNames, List.mem_cons, List.not_mem_nil, or_false,
    not_or] at h
  obtain ⟨h1, h2, h3, h4, h5, h6, h7, h8, h9⟩ := h
  simp [App.get_parameters, App.default_params, h1, h2, h3, h4, h5, h6, h7, h8, h9]

/-- C1 witness: the amended statement evaluated at "Unknown Condition". -/
theorem resolver_total_default_outside_enum_witness :
    "Unknown Condition" ∉ App.scenarioNames ∧
    App.get_parameters "Unknown Condition" = App.default_params :=
  ⟨by decide, resolver_total_default_outside_enum "Unknown Condition" (by decide)⟩

/-- C2: for every scenario string and parameter tuple, the source's potassium
computation (slope formula, conditional `+1.5` exactly when the channel is
pharmacologically or genetically disabled, final clamp to `[k_min, k_max]`)
coincides with the specification's §4.2 step 6 formula. -/
theorem k_val_matches_spec_formula (scenario : String) (p : App.Params) :
    App.k_val scenario p = Spec.serum_potassium p (App.enac_flux scenario p) := rfl

/-- C3: for every scenario string and parameter tuple, the source's blood
pressure computation coincides with the specification's
`clamp(120 * volume_modifier + (channel_flux - 1.5) * fine_tune_constant,
bp_min, bp_max)`. -/
theorem bp_matches_spec_formula (scenario : String) (p : App.Params) :
    App.bp scenario p = Spec.systolic_bp p (App.enac_flux scenario p) := rfl

/-- C4: the channel open probability equals the genotype factor alone for the
Liddle scenario and `genotype_factor * (1 + serum_aldosterone *
receptor_efficacy / K)` with `K = 15` otherwise, and the flux equals
`channel_open_prob * distal_delivery * (1 - pore_block_fraction)`. -/
theorem open_prob_and_flux_match_spec (scenario : String) (p : App.Params) :
    App.channel_open_prob scenario p = Spec.channel_open_prob scenario p ∧
    App.enac_flux scenario p = Spec.channel_flux scenario p := by
  have hcop : App.channel_open_prob scenario p = Spec.channel_open_prob scenario p := by
    by_cases h : scenario = App.nLiddle
    · simp [App.channel_open_prob, Spec.channel_open_prob, h]
    · simp only [App.channel_open_prob, Spec.channel_open_prob, h, if_false,
        App.aldo_stim, App.aldo_signal, Spec.K]
      norm_num
  exact ⟨hcop, by simp only [App.enac_flux, Spec.channel_flux, hcop]⟩

/-- C5: for every scenario string and every parameter tuple whatsoever, the
computed systolic blood pressure lies in `[85, 190]` and the computed serum
potassium lies in `[2.8, 6.5]`. -/
theorem bp_k_within_clamp_bounds (scenario : String) (p : App.Params) :
    85 ≤ App.bp scenario p ∧ App.bp scenario p ≤ 190 ∧
    2.8 ≤ App.k_val scenario p ∧ App.k_val scenario p ≤ 6.5 := by
  simp only [App.bp, App.k_val]
  exact ⟨le_max_left _ _, max_le (by norm_num) (min_le_left _ _),
    le_max_left _ _, max_le (by norm_num) (min_le_left _ _)⟩

/-- C6 counterexample: with a zero genotype factor (admissible: §3 only
requires non-negativity), the open probability is 0, so raising the pore-block
fraction from 0.3 to 0.6 leaves the flux constant at 0 — not a strict
decrease. -/
theorem flux_not_strictly_decreasing_zero_open_prob :
    Cex.zeroGeno₁.g_factor = Cex.zeroGeno₂.g_factor ∧
    Cex.zeroGeno₁.serum_aldo = Cex.zeroGeno₂.serum_aldo ∧
    Cex.zeroGeno₁.mr_efficacy = Cex.zeroGeno₂.mr_efficacy ∧
    Cex.zeroGeno₁.delivery = Cex.zeroGeno₂.delivery ∧
    Cex.zeroGeno₁.pore_block < Cex.zeroGeno₂.pore_block ∧
    Cex.zeroGeno₂.pore_block ≤ 1 ∧
    ¬ App.enac_flux App.nNormal Cex.zeroGeno₂ <
        App.enac_flux App.nNormal Cex.zeroGeno₁ := by
  refine ⟨rfl, rfl, rfl, rfl, by norm_num [Cex.zeroGeno₁, Cex.zeroGeno₂],
    by norm_num [Cex.zeroGeno₂], ?_⟩
  norm_num [App.enac_flux, copNormal, App.aldo_stim, App.aldo_signal,
    Cex.zeroGeno₁, Cex.zeroGeno₂]

/-- C6 (amended): holding the other inputs fixed and assuming a positive
product of open probability and delivery, the flux is strictly decreasing in
the pore-block fraction, and it reaches exactly 0 at a fully blocked pore. -/
theorem flux_strict_anti_in_pore_block (s : String) (p : App.Params)
    (h : 0 < App.channel_open_prob s p * p.delivery) :
    (∀ pb1 pb2 : ℚ, pb1 < pb2 →
        App.enac_flux s { p with pore_block := pb2 } <
          App.enac_flux s { p with pore_block := pb1 }) ∧
    App.enac_flux s { p with pore_block := 1 } = 0 := by
  constructor
  · intro pb1 pb2 hlt
    simp only [App.enac_flux, channel_open_prob_set_pore_block]
    exact mul_lt_mul_of_pos_left (by linarith) h
  · simp [App.enac_flux]

/-- C6 witness: the amended statement evaluated at the default tuple, where
the open probability times delivery is 5/3 > 0. -/
theorem flux_strict_anti_in_pore_block_witness :
    0 < App.channel_open_prob App.nNormal App.default_params *
        App.default_params.delivery ∧
    App.enac_flux App.nNormal { App.default_params with pore_block := 1 } = 0 := by
  have h : 0 < App.channel_open_prob App.nNormal App.default_params *
      App.default_params.delivery := by
    norm_num [copNormal, App.aldo_stim, App.aldo_signal, App.default_params]
  exact ⟨h, (flux_strict_anti_in_pore_block App.nNormal App.default_params h).2⟩

/-- C7 counterexample: with a fully blocked pore (`pore_block = 1.0`,
admissible per §3) the flux is identically 0, so raising the delivery from 1.0
to 2.0 does not strictly increase it, even though the open probability is
non-zero (it is 9/5). -/
theorem flux_not_strictly_increasing_full_block :
    App.channel_open_prob App.nNormal Cex.fullBlock₁ ≠ 0 ∧
    Cex.fullBlock₁.g_factor = Cex.fullBlock₂.g_factor ∧
    Cex.fullBlock₁.serum_aldo = Cex.fullBlock₂.serum_aldo ∧
    Cex.fullBlock₁.mr_efficacy = Cex.fullBlock₂.mr_efficacy ∧
    Cex.fullBlock₁.pore_block = Cex.fullBlock₂.pore_block ∧
    Cex.fullBlock₁.delivery < Cex.fullBlock₂.delivery ∧
    ¬ App.enac_flux App.nNormal Cex.fullBlock₁ <
        App.enac_flux App.nNormal Cex.fullBlock₂ := by
  refine ⟨?_, rfl, rfl, rfl, rfl, by norm_num [Cex.fullBlock₁, Cex.fullBlock₂], ?_⟩
  · norm_num [copNormal, App.aldo_stim, App.aldo_signal, Cex.fullBlock₁]
  · norm_num [App.enac_flux, copNormal, App.aldo_stim, App.aldo_signal,
      Cex.fullBlock₁, Cex.fullBlock₂]

/-- C7 (amended): holding the other inputs fixed and assuming the open
probability is non-zero (and non-negative, per the §3 invariants) and the pore
is not fully blocked, the flux is strictly increasing in the delivery. -/
theorem flux_strict_mono_in_delivery (s : String) (p : App.Params)
    (hne : App.channel_open_prob s p ≠ 0) (hnn : 0 ≤ App.channel_open_prob s p)
    (hpb : p.pore_block < 1) (d1 d2 : ℚ) (hd : d1 < d2) :
    App.enac_flux s { p with delivery := d1 } <
      App.enac_flux s { p with delivery := d2 } := by
  have hcop : 0 < App.channel_open_prob s p := lt_of_le_of_ne hnn (Ne.symm hne)
  have hb : (0:ℚ) < 1 - p.pore_block := by linarith
  simp only [App.enac_flux, channel_open_prob_set_delivery]
  exact mul_lt_mul_of_pos_right (mul_lt_mul_of_pos_left hd hcop) hb

/-- C7 witness: the amended statement evaluated at the default tuple, with
deliveries 1 and 2. -/
theorem flux_strict_mono_in_delivery_witness :
    App.channel_open_prob App.nNormal App.default_params ≠ 0 ∧
    0 ≤ App.channel_open_prob App.nNormal App.default_params ∧
    App.default_params.pore_block < 1 ∧
    App.enac_flux App.nNormal { App.default_params with delivery := 1 } <
      App.enac_flux App.nNormal { App.default_params with delivery := 2 } := by
  have h1 : App.channel_open_prob App.nNormal App.default_params ≠ 0 := by
    norm_num [copNormal, App.aldo_stim, App.aldo_signal, App.default_params]
  have h2 : 0 ≤ App.channel_open_prob App.nNormal App.default_params := by
    norm_num [copNormal, App.aldo_stim, App.aldo_signal, App.default_params]
  have h3 : App.default_params.pore_block < 1 := by norm_num [App.default_params]
  exact ⟨h1, h2, h3, flux_strict_mono_in_delivery App.nNormal App.default_params
    h1 h2 h3 1 2 (by norm_num)⟩

/-- C8: the Amiloride scenario (pore block 0.95) and the PHA Type 1 scenario
(genotype factor 0.1) both trip the disabled-channel condition; the clamped
slope formula alone stays at or below 5.2 for each, while the actual computed
potassium exceeds 5.2 — the hyperkalemia comes from the `+1.5` override
path. -/
theorem amiloride_pha_hyperkalemia :
    App.channel_disabled (App.get_parameters App.nAmiloride) ∧
    App.channel_disabled (App.get_parameters App.nPHA) ∧
    Spec.clamp (4.0 - Spec.k_slope *
        (App.enac_flux App.nAmiloride (App.get_parameters App.nAmiloride) -
          Spec.k_pivot)) Spec.k_min Spec.k_max ≤ 5.2 ∧
    Spec.clamp (4.0 - Spec.k_slope *
        (App.enac_flux App.nPHA (App.get_parameters App.nPHA) -
          Spec.k_pivot)) Spec.k_min Spec.k_max ≤ 5.2 ∧
    5.2 < App.k_val App.nAmiloride (App.get_parameters App.nAmiloride) ∧
    5.2 < App.k_val App.nPHA (App.get_parameters App.nPHA) := by
  refine ⟨?_, ?_, ?_, ?_, ?_, ?_⟩
  · norm_num [App.channel_disabled, gpAmiloride]
  · norm_num [App.channel_disabled, gpPHA]
  · norm_num [Spec.clamp, Spec.k_slope, Spec.k_pivot, Spec.k_min, Spec.k_max,
      App.enac_flux, copAmiloride, App.aldo_stim, App.aldo_signal, gpAmiloride,
      max_def, min_def]
  · norm_num [Spec.clamp, Spec.k_slope, Spec.k_pivot, Spec.k_min, Spec.k_max,
      App.enac_flux, copPHA, App.aldo_stim, App.aldo_signal, gpPHA,
      max_def, min_def]
  · norm_num [App.k_val, App.channel_disabled, App.enac_flux, copAmiloride,
      App.aldo_stim, App.aldo_signal, gpAmiloride, max_def, min_def]
  · norm_num [App.k_val, App.channel_disabled, App.enac_flux, copPHA,
      App.aldo_stim, App.aldo_signal, gpPHA, max_def, min_def]

/-- C9: each of the nine enumerated scenario kinds resolves to a hardcoded
tuple every component of which lies within the value or range of the §4.1
mapping table. -/
theorem resolver_rows_within_spec_table :
    Spec.rowMatches Spec.rowNormal (App.get_parameters App.nNormal) ∧
    Spec.rowMatches Spec.rowAcetazolamide (App.get_parameters App.nAcetazolamide) ∧
    Spec.rowMatches Spec.rowVomiting (App.get_parameters App.nVomiting) ∧
    Spec.rowMatches Spec.rowFurosemide (App.get_parameters App.nFurosemide) ∧
    Spec.rowMatches Spec.rowDehydration (App.get_parameters App.nDehydration) ∧
    Spec.rowMatches Spec.rowLiddle (App.get_parameters App.nLiddle) ∧
    Spec.rowMatches Spec.rowAmiloride (App.get_parameters App.nAmiloride) ∧
    Spec.rowMatches Spec.rowAldactone (App.get_parameters App.nAldactone) ∧
    Spec.rowMatches Spec.rowPHA (App.get_parameters App.nPHA) := by
  refine ⟨?_, ?_, ?_, ?_, ?_, ?_, ?_, ?_, ?_⟩ <;>
    norm_num [Spec.rowMatches, Spec.inRange, Spec.pt, Spec.rowNormal,
      Spec.rowAcetazolamide, Spec.rowVomiting, Spec.rowFurosemide,
      Spec.rowDehydration, Spec.rowLiddle, Spec.rowAmiloride, Spec.rowAldactone,
      Spec.rowPHA, gpNormal, gpAcetazolamide, gpVomiting, gpFurosemide,
      gpDehydration, gpLiddle, gpAmiloride, gpAldactone, gpPHA]

/-- C10: every identifier string that is not one of the nine enumerated
scenario names resolves, without any error, to the default tuple
`(1.0, 10.0, 1.0, 1.0, 0.0, 1.0)`. -/
theorem unknown_scenario_default_params (s : String)
    (h : ¬(s = App.nNormal ∨ s = App.nAcetazolamide ∨ s = App.nVomiting ∨
        s = App.nFurosemide ∨ s = App.nDehydration ∨ s = App.nLiddle ∨
        s = App.nAmiloride ∨ s = App.nAldactone ∨ s = App.nPHA)) :
    App.get_parameters s = ⟨1.0, 10.0, 1.0, 1.0, 0.0, 1.0⟩ := by
  push_neg at h
  obtain ⟨h1, h2, h3, h4, h5, h6, h7, h8, h9⟩ := h
  simp [App.get_parameters, h1, h2, h3, h4, h5, h6, h7, h8, h9]

/-- C10 witness: the identifier "Hyperaldosteronism" is none of the nine
names and resolves to the default tuple. -/
theorem unknown_scenario_default_params_witness :
    ¬("Hyperaldosteronism" = App.nNormal ∨
      "Hyperaldosteronism" = App.nAcetazolamide ∨
      "Hyperaldosteronism" = App.nVomiting ∨
      "Hyperaldosteronism" = App.nFurosemide ∨
      "Hyperaldosteronism" = App.nDehydration ∨
      "Hyperaldosteronism" = App.nLiddle ∨
      "Hyperaldosteronism" = App.nAmiloride ∨
      "Hyperaldosteronism" = App.nAldactone ∨
      "Hyperaldosteronism" = App.nPHA) ∧
    App.get_parameters "Hyperaldosteronism" = ⟨1.0, 10.0, 1.0, 1.0, 0.0, 1.0⟩ :=
  ⟨by decide, unknown_scenario_default_params "Hyperaldosteronism" (by decide)⟩
